import Mathlib

/-!
Verification of `src/cltk/tokenize/sentence.py` (sentence tokenization for
classical languages) against its design specification.

The module under verification consists of the constant `PUNCTUATION` table,
the class `TokenizeSentence` (constructor `__init__`, static method
`_setup_language_variables`, method `_setup_tokenizer`, method
`tokenize_sentences`) and the module-level function `open_pickle`.

Shallow-embedding conventions:
  * Python exceptions become constructors of `PyErr`; the code only ever
    raises `AssertionError` (via `assert`) or terminates the process with
    `sys.exit(1)`.
  * Side effects (filesystem probes, file reads, printing) are recorded in
    an explicit effect trace (`List Eff`).
  * The filesystem is an explicit map `String → Option Blob`; a blob is
    either a well-formed pickled Punkt model or undeserializable garbage.
  * The shared class-level fields of nltk's `PunktLanguageVars`
    (`sent_end_chars`, `internal_punctuation`), which `_setup_tokenizer`
    reassigns, are modelled as an explicit state value `PunktGlobals`
    threaded through the methods that touch it.
  * nltk's Punkt sentence splitter itself is not part of this repository;
    it is modelled from the specification (see `sentences_from_text`).
-/

namespace Cltk

/-- A Python value, as far as this module distinguishes them: a string, the
`None` value (which is what `list.append` returns), or any other non-string
value (represented by an integer tag). -/
inductive PyVal where
  | str (s : String)
  | none
  | int (n : Int)
  deriving DecidableEq, Repr

/-- How a call can fail.  The source raises `AssertionError` (carrying only a
message) for all of its `assert` statements, and `open_pickle` terminates the
whole process via `sys.exit(1)`. -/
inductive PyErr where
  | assertionError (msg : String)
  | systemExit (code : Nat)
  deriving DecidableEq, Repr

/-- An observable side effect: an `os.path.isfile` probe, an attempt to open
and read a file, or printing an error message to stdout. -/
inductive Eff where
  | isFile (path : String)
  | openRead (path : String)
  | printErr
  deriving DecidableEq, Repr

/-- The deserialized content of a pretrained Punkt model artifact, reduced to
the contract the boundary algorithm needs (spec section 4.3/9): an
abbreviation table and a sentence-starter table. -/
structure PunktModel where
  abbrevs : List String
  sentStarters : List String
  deriving DecidableEq, Repr

/-- A file's content: either a pickle that deserializes to a `PunktModel`, or
bytes on which `pickle.load` raises `PickleError`. -/
inductive Blob where
  | pickledModel (m : PunktModel)
  | garbage
  deriving DecidableEq, Repr

/-- The ambient environment: the home directory (for `os.path.expanduser`)
and the filesystem. -/
structure SysEnv where
  home : String
  fs : String → Option Blob

/-- The shared class-level fields of nltk's `PunktLanguageVars` that
`_setup_tokenizer` reassigns: `sent_end_chars` and `internal_punctuation`.
This is process-wide state shared by every `TokenizeSentence` instance. -/
structure PunktGlobals where
  sent_end_chars : List Char
  internal_punctuation : List Char
  deriving DecidableEq, Repr

/-- The punctuation profile for one language: the `'external'`, `'internal'`
and `'file'` entries of one value of the `PUNCTUATION` dict. -/
structure PunctProfile where
  external : List Char
  internal : List Char
  file : String
  deriving DecidableEq, Repr

/-- The module-level `PUNCTUATION` table of `sentence.py`, lines 13-20. -/
def PUNCTUATION : List (String × PunctProfile) :=
  [("greek", ⟨['.', ';'], [',', '·'], "greek.pickle"⟩),
   ("latin", ⟨['.', '?', ':'], [',', ';'], "latin.pickle"⟩)]

/-- Dictionary lookup in `PUNCTUATION` (`PUNCTUATION[lang]`, guarded in the
source by `lang in PUNCTUATION.keys()`). -/
def lookupPunct (lang : String) : Option PunctProfile :=
  (PUNCTUATION.find? (fun p => p.1 == lang)).map (fun p => p.2)

/-- Python's `str.lower()`, character by character (the language names and
model tokens involved are plain ASCII). -/
def strLower (s : String) : String :=
  String.mk (s.toList.map Char.toLower)

/-- `os.path.join` for the shapes used in this module (no absolute second
component is ever joined). -/
def osJoin (a b : String) : String :=
  if a.toList.getLast? = Option.some '/' then a ++ b else a ++ "/" ++ b

/-- `os.path.expanduser`: replace a leading tilde with the home directory. -/
def expanduser (home p : String) : String :=
  if p.toList.head? = Option.some '~' then home ++ String.mk (p.toList.drop 1)
  else p

/-- The instance state assembled by `TokenizeSentence.__init__`. -/
structure TokenizeSentence where
  language : String
  internal_punctuation : List Char
  external_punctuation : List Char
  tokenizer_path : String
  deriving DecidableEq, Repr

/-- `TokenizeSentence._setup_language_variables` (lines 38-58): assert the
language is in `PUNCTUATION`, read its punctuation entries, build the
tokenizer file path, assert the file exists.  Returns the effect trace
together with either the `(internal, external, path)` triple or the
exception raised. -/
def setup_language_variables (env : SysEnv) (lang : String) :
    List Eff × Except PyErr (List Char × List Char × String) :=
  match lookupPunct lang with
  | Option.none =>
      ([], Except.error (PyErr.assertionError
        "Sentence tokenizer not available for language."))
  | Option.some prof =>
      let rel_path := osJoin (osJoin "~/cltk_data" lang)
        "trained_model/cltk_linguistic_data/tokenizers/sentence"
      let path := expanduser env.home rel_path
      let tokenizer_path := osJoin path prof.file
      if (env.fs tokenizer_path).isSome then
        ([Eff.isFile tokenizer_path],
         Except.ok (prof.internal, prof.external, tokenizer_path))
      else
        ([Eff.isFile tokenizer_path],
         Except.error (PyErr.assertionError
           "CLTK linguistics data not available."))

/-- `TokenizeSentence.__init__` (lines 28-36): lower-case the language name
and assemble the instance fields from `_setup_language_variables`. -/
def TokenizeSentence.init (env : SysEnv) (language : String) :
    List Eff × Except PyErr TokenizeSentence :=
  let lang := strLower language
  match setup_language_variables env lang with
  | (effs, Except.error e) => (effs, Except.error e)
  | (effs, Except.ok (intp, extp, path)) =>
      (effs, Except.ok
        { language := lang
          internal_punctuation := intp
          external_punctuation := extp
          tokenizer_path := path })

/-- `open_pickle` (lines 93-109): open the file and unpickle it.  On
`IOError` (file absent) or `PickleError` (garbage content) the function
prints the error and calls `sys.exit(1)`; no error is returned to the
caller, the process terminates with exit status 1 in both cases. -/
def open_pickle (fs : String → Option Blob) (path : String) :
    List Eff × Except PyErr PunktModel :=
  match fs path with
  | Option.none =>
      ([Eff.openRead path, Eff.printErr],
       Except.error (PyErr.systemExit 1))
  | Option.some (Blob.pickledModel m) =>
      ([Eff.openRead path], Except.ok m)
  | Option.some Blob.garbage =>
      ([Eff.openRead path, Eff.printErr],
       Except.error (PyErr.systemExit 1))

/-- `TokenizeSentence._setup_tokenizer` (lines 60-72).  The source binds
`language_punkt_vars = PunktLanguageVars` — the CLASS object, not an
instance — and reassigns its `sent_end_chars` and `internal_punctuation`
attributes, i.e. it overwrites process-wide shared state.  It then sets the
collocation flags on the unpickled trainer and builds a
`PunktSentenceTokenizer` from its parameters; `get_params()` on the trainer
is modelled as the identity on the deserialized `PunktModel` (nltk is not
part of this repository).  Returns the new shared state and the parameters
of the tokenizer that was built. -/
def setup_tokenizer (self : TokenizeSentence) (g : PunktGlobals)
    (tokenizer : PunktModel) : PunktGlobals × PunktModel :=
  let _ := g
  ({ sent_end_chars := self.external_punctuation
     internal_punctuation := self.internal_punctuation }, tokenizer)

/-- Whitespace, for token extraction and trimming. -/
def isWs (c : Char) : Bool :=
  c = ' ' || c = '\t' || c = '\n' || c = '\r'

/-- Modelled from the spec: closing punctuation reattached to the preceding
sentence by boundary realignment (spec section 4.3 step 4: quotation marks
and parentheses; the exact set is a policy choice, spec section 9). -/
def closingPunct : List Char := [')', ']', '\"', '»', '”']

/-- Abbreviation lookup in the model, "by exact or normalized lookup"
(spec section 4.3 step 3). -/
def isAbbrev (m : PunktModel) (tok : String) : Bool :=
  m.abbrevs.contains tok || m.abbrevs.contains (strLower tok)

/-- Sentence-starter lookup in the model (spec section 4.3 step 3). -/
def isStarter (m : PunktModel) (tok : String) : Bool :=
  m.sentStarters.contains tok || m.sentStarters.contains (strLower tok)

/-- Strip leading and trailing whitespace from a character list and pack it
into a string (spec section 4.3 step 5: trim incidental whitespace). -/
def trimChars (l : List Char) : String :=
  String.mk (((l.dropWhile isWs).reverse.dropWhile isWs).reverse)

/-- A trimmed segment becomes a sentence only if it is non-empty. -/
def emitSent (s : String) : List String :=
  if s = "" then [] else [s]

/-- Modelled from the spec (section 4.3 step 3): classify a candidate
boundary.  `revTok` is the current sentence so far, reversed, with the
candidate terminal character on top; the token immediately before the
candidate is its trailing non-whitespace run.  An occurrence whose
preceding token is a known abbreviation is not a boundary unless the
following token is a known sentence starter; any other occurrence is a
boundary. -/
def decideBoundary (m : PunktModel) (revTok : List Char)
    (rest : List Char) : Bool :=
  let prevTok := String.mk ((revTok.takeWhile (fun ch => !isWs ch)).reverse)
  let nextTok := String.mk
    ((rest.dropWhile isWs).takeWhile (fun ch => !isWs ch))
  if isAbbrev m prevTok then isStarter m nextTok else true

/-- Modelled from the spec (section 4.3): the scanning loop of the boundary
algorithm.  `fuel` bounds the recursion (each step consumes at least one
input character, so `|input| + 1` is always enough); `l` is the remaining
input; `acc` is the current sentence, reversed.  A character of the
external set is a candidate boundary; a confirmed boundary is realigned
over following closing punctuation and the trimmed sentence is emitted;
internal characters never produce candidates. -/
def sentSplitGo (m : PunktModel) (ext : List Char) :
    Nat → List Char → List Char → List String
  | 0, l, acc => emitSent (trimChars (acc.reverse ++ l))
  | Nat.succ fuel, l, acc =>
    match l with
    | [] => emitSent (trimChars acc.reverse)
    | c :: rest =>
      if ext.contains c && decideBoundary m (c :: acc) rest then
        let closers := rest.takeWhile (fun ch => closingPunct.contains ch)
        let rest2 := rest.dropWhile (fun ch => closingPunct.contains ch)
        emitSent (trimChars (acc.reverse ++ c :: closers))
          ++ sentSplitGo m ext fuel rest2 []
      else
        sentSplitGo m ext fuel rest (c :: acc)

/-- Modelled from the spec: nltk's
`PunktSentenceTokenizer.sentences_from_text(text, realign_boundaries=True)`,
which is library code not contained in this repository, reconstructed from
spec section 4.3 (candidate scan, abbreviation / sentence-starter
classification, boundary realignment, trimmed split; empty input yields the
empty sequence).  `intp` is the configured internal punctuation; internal
characters never produce a candidate boundary (they are simply not in
`ext`), so the parameter does not influence the splitting itself. -/
def sentences_from_text (m : PunktModel) (ext intp : List Char)
    (text : String) : List String :=
  let _ := intp
  sentSplitGo m ext (text.length + 1) text.toList []

/-- Decidable equality for `Except`, needed to evaluate concrete outcomes. -/
instance instDecEqExcept {ε α : Type} [DecidableEq ε] [DecidableEq α] :
    DecidableEq (Except ε α)
  | Except.ok x, Except.ok y =>
      if h : x = y then isTrue (by rw [h])
      else isFalse (fun hc => h (Except.ok.inj hc))
  | Except.error x, Except.error y =>
      if h : x = y then isTrue (by rw [h])
      else isFalse (fun hc => h (Except.error.inj hc))
  | Except.ok _, Except.error _ => isFalse (fun hc => Except.noConfusion hc)
  | Except.error _, Except.ok _ => isFalse (fun hc => Except.noConfusion hc)

/-- The full observable outcome of one `tokenize_sentences` call: the shared
`PunktLanguageVars` state afterwards, the effect trace, and the returned
value or the exception raised. -/
structure TkResult where
  globals : PunktGlobals
  effects : List Eff
  result : Except PyErr (List PyVal)
  deriving DecidableEq, Repr

/-- `TokenizeSentence.tokenize_sentences` (lines 74-90): assert the argument
is a string, unpickle the tokenizer from `self.tokenizer_path`, configure
and build the Punkt tokenizer, and return the list comprehension
`[tokenized_sentences.append(sentence) for sentence in
pst.sentences_from_text(untokenized_string, realign_boundaries=True)]`.
`list.append` returns `None`, so the comprehension collects one `None` per
sentence. -/
def TokenizeSentence.tokenize_sentences (self : TokenizeSentence)
    (env : SysEnv) (g : PunktGlobals) (arg : PyVal) : TkResult :=
  match arg with
  | PyVal.str s =>
      let loaded := open_pickle env.fs self.tokenizer_path
      match loaded.2 with
      | Except.error e => ⟨g, loaded.1, Except.error e⟩
      | Except.ok tokenizer =>
          let st := setup_tokenizer self g tokenizer
          let gp := st.1
          let sents := sentences_from_text st.2
            gp.sent_end_chars gp.internal_punctuation s
          ⟨gp, loaded.1, Except.ok (sents.map (fun _ => PyVal.none))⟩
  | _ => ⟨g, [], Except.error (PyErr.assertionError
           "Incoming argument must be a string.")⟩

/-- Is the value a Python string? -/
def PyVal.isStr : PyVal → Bool
  | PyVal.str _ => true
  | _ => false

/-- Is the effect a file read? -/
def isOpenRead : Eff → Bool
  | Eff.openRead _ => true
  | _ => false

/- Concrete fixtures used by witnesses and counterexamples. -/

/-- A concrete trained model: "cn." is a known abbreviation, "quarum" a
known sentence starter. -/
def sampleModel : PunktModel := ⟨["cn."], ["quarum"]⟩

/-- The tokenizer path `__init__` computes for greek under home `/h`. -/
def greekPath : String :=
  "/h/cltk_data/greek/trained_model/cltk_linguistic_data/tokenizers/sentence/greek.pickle"

/-- The tokenizer path `__init__` computes for latin under home `/h`. -/
def latinPath : String :=
  "/h/cltk_data/latin/trained_model/cltk_linguistic_data/tokenizers/sentence/latin.pickle"

/-- A filesystem holding valid model artifacts for greek and latin. -/
def sampleFs : String → Option Blob := fun p =>
  if p = greekPath || p = latinPath then
    Option.some (Blob.pickledModel sampleModel)
  else Option.none

/-- Environment with both model artifacts present and valid. -/
def sampleEnv : SysEnv := ⟨"/h", sampleFs⟩

/-- Environment with an empty filesystem (every artifact absent). -/
def emptyEnv : SysEnv := ⟨"/h", fun _ => Option.none⟩

/-- Environment where the greek artifact exists but does not unpickle. -/
def corruptEnv : SysEnv :=
  ⟨"/h", fun p => if p = greekPath then Option.some Blob.garbage
                  else Option.none⟩

/-- The greek resolver instance, as `TokenizeSentence('greek')` builds it. -/
def greekTok : TokenizeSentence :=
  ⟨"greek", [',', '·'], ['.', ';'], greekPath⟩

/-- The latin resolver instance, as `TokenizeSentence('latin')` builds it. -/
def latinTok : TokenizeSentence :=
  ⟨"latin", [',', ';'], ['.', '?', ':'], latinPath⟩

/-- An arbitrary initial shared `PunktLanguageVars` state. -/
def g0 : PunktGlobals := ⟨[], []⟩

/-- The shared state a latin `tokenize_sentences` call leaves behind. -/
def latinGlobals : PunktGlobals := ⟨['.', '?', ':'], [',', ';']⟩

/-- Claim C1: the spec states that `tokenize` returns an ordered sequence of
strings, each element one sentence of the input.  The code instead returns
the collected results of `list.append`, which are all `None`: on the input
`"abc."` (one sentence, as the splitter itself confirms) the greek resolver
returns `[None]`, and `None` is not a string.  The comment `mk list of
tokenized sentences` in the source shows the claim is the intent and the
code a slip. -/
theorem c1_code_returns_none_not_sentences :
    (greekTok.tokenize_sentences sampleEnv g0 (PyVal.str "abc.")).result
        = Except.ok [PyVal.none]
    ∧ sentences_from_text sampleModel greekTok.external_punctuation
        greekTok.internal_punctuation "abc." = ["abc."]
    ∧ PyVal.isStr PyVal.none = false := by
  decide

/-- Claim C2: the spec states that concatenating the returned sentence spans
with the original separators reconstructs the input.  On the latin input
`"Puella canit. Puer currit."` the splitter finds the two spans, but the
value returned to the caller is `[None, None]`: it contains no strings at
all, so no concatenation of its elements can reproduce the input text. -/
theorem c2_output_carries_no_spans :
    (latinTok.tokenize_sentences sampleEnv g0
        (PyVal.str "Puella canit. Puer currit.")).result
        = Except.ok [PyVal.none, PyVal.none]
    ∧ sentences_from_text sampleModel latinTok.external_punctuation
        latinTok.internal_punctuation "Puella canit. Puer currit."
        = ["Puella canit.", "Puer currit."]
    ∧ ([PyVal.none, PyVal.none]).all PyVal.isStr = false := by
  decide

/-- Claim C3, counterexample to the no-shared-mutable-state conjunct: a
latin `tokenize_sentences` call leaves the shared class-level
`PunktLanguageVars` state set to latin's punctuation, and a subsequent
greek call overwrites that same shared state — the two resolver instances
do not each own their configuration exclusively. -/
theorem c3_shared_state_overwritten :
    (latinTok.tokenize_sentences sampleEnv g0 (PyVal.str "x.")).globals
        = latinGlobals
    ∧ ¬ ((greekTok.tokenize_sentences sampleEnv latinGlobals
          (PyVal.str "y.")).globals = latinGlobals) := by
  decide

/-- Claim C3, amended: `tokenize_sentences` is deterministic — its returned
value and its effect trace do not depend on the incoming shared
`PunktLanguageVars` state, hence not on the order of calls — because every
call overwrites the shared state with its own instance's punctuation before
using it.  (The shared state itself is mutated on every call, see the
counterexample.) -/
theorem c3_result_independent_of_shared_state (self : TokenizeSentence)
    (env : SysEnv) (g1 g2 : PunktGlobals) (v : PyVal) :
    (self.tokenize_sentences env g1 v).result
        = (self.tokenize_sentences env g2 v).result
    ∧ (self.tokenize_sentences env g1 v).effects
        = (self.tokenize_sentences env g2 v).effects := by
  cases v with
  | str s =>
      cases h : (open_pickle env.fs self.tokenizer_path).2 <;>
        simp [TokenizeSentence.tokenize_sentences, setup_tokenizer, h]
  | none => exact ⟨rfl, rfl⟩
  | int n => exact ⟨rfl, rfl⟩

/-- Claim C4, counterexample: a successful `tokenize_sentences` call's
effect trace is exactly one file read of the model artifact — so `tokenize`
does perform I/O — while construction's trace is only the `os.path.isfile`
probe, with no read of the model at all. -/
theorem c4_tokenize_reads_init_does_not :
    (greekTok.tokenize_sentences sampleEnv g0 (PyVal.str "abc.")).effects
        = [Eff.openRead greekPath]
    ∧ (TokenizeSentence.init sampleEnv "greek").1 = [Eff.isFile greekPath] := by
  decide

/-- Helper: the constructor's effect trace is exactly the trace of
`_setup_language_variables` on the lower-cased language. -/
theorem init_effects (env : SysEnv) (language : String) :
    (TokenizeSentence.init env language).1
      = (setup_language_variables env (strLower language)).1 := by
  rcases hs : setup_language_variables env (strLower language) with
    ⟨effs, e | ⟨a, b, c⟩⟩ <;> simp [TokenizeSentence.init, hs]

/-- Helper: `_setup_language_variables` never reads the model artifact; its
trace is at most the `os.path.isfile` probe. -/
theorem setup_no_read (env : SysEnv) (lang : String) :
    (setup_language_variables env lang).1.filter isOpenRead = [] := by
  unfold setup_language_variables
  cases h : lookupPunct lang with
  | none => simp [List.filter]
  | some prof =>
      simp only []
      split <;> simp [List.filter, isOpenRead]

/-- Claim C4, amended: the model is never read at construction (the
constructor only probes for the file's existence), and every
`tokenize_sentences` call on a string performs exactly one read of the
model artifact — the model is re-loaded on every call, not loaded once. -/
theorem c4_read_on_every_call_not_at_init (env : SysEnv) (language : String)
    (self : TokenizeSentence) (g : PunktGlobals) (s : String) :
    (TokenizeSentence.init env language).1.filter isOpenRead = []
    ∧ (self.tokenize_sentences env g (PyVal.str s)).effects.filter isOpenRead
        = [Eff.openRead self.tokenizer_path] := by
  refine ⟨?_, ?_⟩
  · rw [init_effects]
    exact setup_no_read env (strLower language)
  · cases h : env.fs self.tokenizer_path with
    | none =>
        simp [TokenizeSentence.tokenize_sentences, open_pickle, h,
          isOpenRead, List.filter]
    | some b =>
        cases b <;>
          simp [TokenizeSentence.tokenize_sentences, open_pickle, h,
            isOpenRead, List.filter]

/-- Claim C5, counterexample to the typed-error part: the failure for an
unsupported language and the failure for missing linguistics data are both
raised as the single `AssertionError` exception type, distinguishable only
by their message text — there is no dedicated `UnsupportedLanguageError`
type. -/
theorem c5_no_dedicated_error_type :
    (TokenizeSentence.init emptyEnv "klingon").2
        = Except.error (PyErr.assertionError
            "Sentence tokenizer not available for language.")
    ∧ (TokenizeSentence.init emptyEnv "greek").2
        = Except.error (PyErr.assertionError
            "CLTK linguistics data not available.") := by
  decide

/-- Claim C5, amended: constructing a resolver for a language outside the
`PUNCTUATION` table (after lower-casing) fails with an `AssertionError`
carrying the message `Sentence tokenizer not available for language.`, and
the effect trace is empty: the failure happens before any resource access. -/
theorem c5_unsupported_language_asserts (env : SysEnv) (language : String)
    (h : lookupPunct (strLower language) = Option.none) :
    TokenizeSentence.init env language
      = ([], Except.error (PyErr.assertionError
          "Sentence tokenizer not available for language.")) := by
  simp [TokenizeSentence.init, setup_language_variables, h]

/-- Witness for C5: the language `"klingon"` is rejected with the
unsupported-language assertion and no effects. -/
theorem c5_unsupported_language_asserts_witness :
    TokenizeSentence.init emptyEnv "klingon"
      = ([], Except.error (PyErr.assertionError
          "Sentence tokenizer not available for language.")) :=
  c5_unsupported_language_asserts emptyEnv "klingon" (by decide)

/-- Claim C6, counterexample: a missing artifact and a corrupt artifact
produce byte-for-byte identical outcomes — print an error, then
`sys.exit(1)` — so the two failures are not surfaced to the caller as
distinguishable errors; the process simply terminates with status 1. -/
theorem c6_failures_indistinguishable :
    open_pickle emptyEnv.fs greekPath = open_pickle corruptEnv.fs greekPath
    ∧ (open_pickle emptyEnv.fs greekPath).2
        = Except.error (PyErr.systemExit 1) := by
  decide

/-- Claim C6, amended: when the artifact is absent (`IOError`) or present
but undeserializable (`PickleError`), `open_pickle` prints the error and
terminates the process with exit status 1 — identically in both cases, so
the caller cannot distinguish them; and whenever `open_pickle` returns a
model, that model is exactly the deserialization of a well-formed artifact
(no partial or degraded model is ever produced). -/
theorem c6_load_failures_exit_the_process (fs : String → Option Blob)
    (path : String) :
    (fs path = Option.none →
      open_pickle fs path = ([Eff.openRead path, Eff.printErr],
        Except.error (PyErr.systemExit 1)))
    ∧ (fs path = Option.some Blob.garbage →
      open_pickle fs path = ([Eff.openRead path, Eff.printErr],
        Except.error (PyErr.systemExit 1)))
    ∧ (∀ m : PunktModel, (open_pickle fs path).2 = Except.ok m →
        fs path = Option.some (Blob.pickledModel m)) := by
  refine ⟨fun h => by simp [open_pickle, h],
          fun h => by simp [open_pickle, h], ?_⟩
  intro m hm
  cases h : fs path with
  | none => simp [open_pickle, h] at hm
  | some b =>
      cases b with
      | pickledModel m2 =>
          simp [open_pickle, h] at hm
          rw [hm]
      | garbage => simp [open_pickle, h] at hm

/-- Witness for C6: the three branches instantiated on the concrete
environments — missing artifact, corrupt artifact, and valid artifact. -/
theorem c6_load_failures_exit_the_process_witness :
    open_pickle emptyEnv.fs greekPath
      = ([Eff.openRead greekPath, Eff.printErr],
         Except.error (PyErr.systemExit 1))
    ∧ open_pickle corruptEnv.fs greekPath
      = ([Eff.openRead greekPath, Eff.printErr],
         Except.error (PyErr.systemExit 1))
    ∧ sampleEnv.fs greekPath = Option.some (Blob.pickledModel sampleModel) :=
  ⟨(c6_load_failures_exit_the_process emptyEnv.fs greekPath).1 (by decide),
   (c6_load_failures_exit_the_process corruptEnv.fs greekPath).2.1 (by decide),
   (c6_load_failures_exit_the_process sampleEnv.fs greekPath).2.2 sampleModel
     (by decide)⟩

/-- Claim C7, counterexample to the typed-error part: a non-string argument
to `tokenize_sentences` and an unsupported language at construction both
fail with the single `AssertionError` exception type — there is no
dedicated `InvalidInputError` type, the failures differ only in message
text. -/
theorem c7_same_error_type_as_other_asserts :
    (greekTok.tokenize_sentences sampleEnv g0 (PyVal.int 3)).result
      = Except.error (PyErr.assertionError
          "Incoming argument must be a string.")
    ∧ (TokenizeSentence.init emptyEnv "klingon").2
      = Except.error (PyErr.assertionError
          "Sentence tokenizer not available for language.") := by
  decide

/-- Claim C7, amended: for every non-string argument, `tokenize_sentences`
fails immediately with an `AssertionError` carrying the message
`Incoming argument must be a string.`; the effect trace is empty (the check
precedes any I/O) and the shared state is untouched. -/
theorem c7_nonstring_input_asserts (self : TokenizeSentence) (env : SysEnv)
    (g : PunktGlobals) (v : PyVal) (h : PyVal.isStr v = false) :
    self.tokenize_sentences env g v
      = ⟨g, [], Except.error (PyErr.assertionError
          "Incoming argument must be a string.")⟩ := by
  cases v with
  | str s => simp [PyVal.isStr] at h
  | none => rfl
  | int n => rfl

/-- Witness for C7: the integer `7` is rejected immediately with the
assertion message and no effects. -/
theorem c7_nonstring_input_asserts_witness :
    greekTok.tokenize_sentences sampleEnv g0 (PyVal.int 7)
      = ⟨g0, [], Except.error (PyErr.assertionError
          "Incoming argument must be a string.")⟩ :=
  c7_nonstring_input_asserts greekTok sampleEnv g0 (PyVal.int 7) (by decide)

/-- Claim C8: for any resolver whose model artifact is present and valid,
`tokenize_sentences` applied to the empty string succeeds and returns the
empty list. -/
theorem c8_empty_input_empty_output (self : TokenizeSentence) (env : SysEnv)
    (g : PunktGlobals) (m : PunktModel)
    (h : env.fs self.tokenizer_path = Option.some (Blob.pickledModel m)) :
    (self.tokenize_sentences env g (PyVal.str "")).result = Except.ok [] := by
  simp only [TokenizeSentence.tokenize_sentences, open_pickle, h,
    setup_tokenizer]
  rfl

/-- Witness for C8: the greek resolver on the empty string returns the
empty list. -/
theorem c8_empty_input_empty_output_witness :
    (greekTok.tokenize_sentences sampleEnv g0 (PyVal.str "")).result
      = Except.ok [] :=
  c8_empty_input_empty_output greekTok sampleEnv g0 sampleModel (by decide)

/-- Claim C9: in the `PUNCTUATION` registry, every language's external
(terminal) character set is disjoint from its internal character set.  In
this embedding the registry is a constant definition, matching the source,
which only ever reads it. -/
theorem c9_external_internal_disjoint :
    PUNCTUATION.all
      (fun p => p.2.external.all (fun c => !(p.2.internal.contains c)))
      = true := by
  decide

/-- Claim C10: whenever `tokenize_sentences` succeeds, its returned list is
the sentence list of the splitter mapped to the constant `None` — one entry
per detected sentence, every entry `None`, because each element is the
return value of `list.append`. -/
theorem c10_every_element_is_none (self : TokenizeSentence) (env : SysEnv)
    (g : PunktGlobals) (s : String) (m : PunktModel)
    (h : env.fs self.tokenizer_path = Option.some (Blob.pickledModel m)) :
    (self.tokenize_sentences env g (PyVal.str s)).result
      = Except.ok ((sentences_from_text m self.external_punctuation
          self.internal_punctuation s).map (fun _ => PyVal.none)) := by
  simp only [TokenizeSentence.tokenize_sentences, open_pickle, h,
    setup_tokenizer]

/-- Witness for C10: on the greek resolver and input `"abc."` the result is
the one-sentence list mapped to `None`. -/
theorem c10_every_element_is_none_witness :
    (greekTok.tokenize_sentences sampleEnv g0 (PyVal.str "abc.")).result
      = Except.ok ((sentences_from_text sampleModel
          greekTok.external_punctuation greekTok.internal_punctuation
          "abc.").map (fun _ => PyVal.none)) :=
  c10_every_element_is_none greekTok sampleEnv g0 "abc." sampleModel
    (by decide)

end Cltk
